import Mathlib

/-!
Shallow embedding of the VulnYoga policy-gated pipeline and order lifecycle
(src/controllers/orderController.ts, itemController.ts, userController.ts,
src/middleware/auth.ts, src/utils/config.ts), together with proofs about the
claims of the specification. Vulnerability flags appear as explicit boolean
arguments; a flag set to false is the strict policy, true the permissive one.
Database rows reached by the prisma queries are passed in explicitly, and the
query filters become guards on those rows. Security-logger calls are collected
in event lists.
-/

namespace VulnYoga

/-- User roles, from src/types (UserRole = CUSTOMER | STAFF | ADMIN). -/
inductive Role
  | Customer
  | Staff
  | Admin
deriving DecidableEq

/-- Order lifecycle states, from src/types (OrderStatus = CART | PLACED | PAID | SHIPPED). -/
inductive OrderStatus
  | Cart
  | Placed
  | Paid
  | Shipped
deriving DecidableEq

/-- Position of a status along the linear lifecycle Cart, Placed, Paid, Shipped. -/
def OrderStatus.rank : OrderStatus → Nat
  | .Cart => 0
  | .Placed => 1
  | .Paid => 2
  | .Shipped => 3

/-- The authenticated caller attached to a request (req.user in middleware/auth). -/
structure Principal where
  id : Nat
  role : Role
deriving DecidableEq

/-- One cart line, from src/types (OrderItem). -/
structure OrderItem where
  itemId : Nat
  qty : ℚ
deriving DecidableEq

/-- Persisted order row as used by orderController. -/
structure Order where
  id : Nat
  userId : Nat
  status : OrderStatus
  items : List OrderItem
  total : ℚ
  discountCode : Option String
  paid : Bool
deriving DecidableEq

/-- Security events emitted through securityLogger (src/utils/logger) and the
expired-token warning emitted through logger.warn in middleware/auth. The
consumption constructor stands for the logger method recording client-trusted
payment data. -/
inductive SecEvent
  | bolaAttempt (userId targetId : Nat) (resource : String)
  | businessFlowViolation (userId : Nat) (flow : String) (detail : String)
  | consumption (userId : Nat) (api : String) (paid : Option Bool) (amount : Option ℚ)
      (currency : Option String)
  | boplaAttempt (userId : Nat) (field : String)
  | expiredTokenWarn
deriving DecidableEq

/-- Outcome of a controller call: a JSON payload on success or an error body. -/
inductive Resp (α : Type)
  | ok (val : α)
  | err (msg : String)
deriving DecidableEq

/-- Boolean success test for a response. -/
def Resp.isOk {α : Type} : Resp α → Bool
  | .ok _ => true
  | .err _ => false

/-- Result of an order-controller operation: the response plus emitted events. -/
structure OpResult where
  response : Resp Order
  events : List SecEvent
deriving DecidableEq

/-- Result of processPayment: additionally records whether the payment stub ran. -/
structure PayResult where
  response : Resp Order
  stubCalled : Bool
  events : List SecEvent
deriving DecidableEq

/-- Translation of getVulnerabilityFlag (src/utils/config): a missing environment
variable yields the default, otherwise the value lower-cased must equal true. -/
def getVulnerabilityFlag (value : Option String) (defaultValue : Bool) : Bool :=
  match value with
  | none => defaultValue
  | some v => v.toLower == "true"

/-- Translation of getSafeModeVulnerabilityFlag (src/utils/config): SAFE_MODE set
exactly to true inverts the raw flag value; the raw default is true. -/
def getSafeModeVulnerabilityFlag (env : String → Option String) (flagName : String) : Bool :=
  let safeMode := env "SAFE_MODE" == some "true"
  let originalValue := getVulnerabilityFlag (env flagName) true
  if safeMode then !originalValue else originalValue

/-- JavaScript truthiness of a nullable string column (null, undefined and the empty
string are falsy), as used by the if tests on order.discountCode. -/
def truthyStr : Option String → Bool
  | none => false
  | some s => !(s == "")

/-- JavaScript truthiness of an optional number (0, null and undefined are falsy). -/
def truthyQ : Option ℚ → Bool
  | none => false
  | some v => !(v == 0)

/-- JavaScript or-default on an optional number, x or d, taking d when x is 0. -/
def jsOrQ (x : Option ℚ) (d : ℚ) : ℚ :=
  match x with
  | none => d
  | some v => if v == 0 then d else v

/-- JavaScript or-default on an optional string, taking the default on empty. -/
def jsOrS (x : Option String) (d : String) : String :=
  match x with
  | none => d
  | some v => if v == "" then d else v

/-- Translation of startCheckout (orderController): the findFirst filters on order
id, owner and CART status; a match is moved to PLACED. -/
def startCheckout (user : Principal) (order : Order) : OpResult :=
  if order.userId == user.id && order.status == OrderStatus.Cart then
    { response := .ok { order with status := .Placed }, events := [] }
  else
    { response := .err "Cart not found", events := [] }

/-- Translation of the JavaScript Math.max call on two rationals. -/
def jsMax (a b : ℚ) : ℚ :=
  if a ≤ b then b else a

/-- Discount arithmetic of createOrder and applyCoupon: FREESHIP takes 10 off,
floored at 0, HALFPRICE halves, any other code leaves the total unchanged. -/
def couponTotal (couponCode : String) (total : ℚ) : ℚ :=
  if couponCode == "FREESHIP" then jsMax 0 (total - 10)
  else if couponCode == "HALFPRICE" then total * (1 / 2)
  else total

/-- Translation of applyCoupon (orderController). The findFirst filters on id, owner
and status in PLACED or PAID. With VULN_API6_BUSINESS_FLOW on, the discount is
recomputed from the current total and the stored code overwritten, with a
business-flow-violation event; otherwise a truthy stored discountCode is
rejected, and an untaken coupon slot stores the new total and the code. -/
def applyCoupon (api6BusinessFlow : Bool) (user : Principal) (order : Order)
    (couponCode : String) : OpResult :=
  if !(order.userId == user.id
        && (order.status == OrderStatus.Placed || order.status == OrderStatus.Paid)) then
    { response := .err "Order not found", events := [] }
  else if api6BusinessFlow then
    { response := .ok { order with
        total := couponTotal couponCode order.total,
        discountCode := some couponCode },
      events := [.businessFlowViolation user.id "checkout" "coupon_replay"] }
  else if truthyStr order.discountCode then
    { response := .err "Coupon already applied", events := [] }
  else
    { response := .ok { order with
        total := couponTotal couponCode order.total,
        discountCode := some couponCode },
      events := [] }

/-- Translation of processPayment (orderController). The stubSuccess argument stands
for the probabilistic outcome of simulatePayment and stubCalled records whether
that stub was invoked. With VULN_API6_BUSINESS_FLOW or VULN_API10_UNSAFE_CONSUMP
on, the client-supplied paid flag is trusted and the stub is never called. -/
def processPayment (api6BusinessFlow api10UnsafeConsump : Bool) (user : Principal)
    (order : Order) (paid : Option Bool) (amount : Option ℚ) (currency : Option String)
    (stubSuccess : Bool) : PayResult :=
  if !(order.userId == user.id && order.status == OrderStatus.Placed) then
    { response := .err "Order not found", stubCalled := false, events := [] }
  else if api6BusinessFlow || api10UnsafeConsump then
    if paid.getD false then
      { response := .ok { order with status := .Paid, paid := true },
        stubCalled := false,
        events :=
          (if api6BusinessFlow then
            [SecEvent.businessFlowViolation user.id "checkout" "payment_skip"]
          else []) ++
          (if api10UnsafeConsump then
            [SecEvent.consumption user.id "payment" paid amount currency]
          else []) }
    else
      { response := .err "Payment failed", stubCalled := false, events := [] }
  else if stubSuccess then
    { response := .ok { order with status := .Paid, paid := true },
      stubCalled := true, events := [] }
  else
    { response := .err "Payment failed", stubCalled := true, events := [] }

/-- Translation of shipOrder (orderController). The findFirst filters only on id and
owner, with no status filter. With VULN_API6_BUSINESS_FLOW on, the order is
always marked SHIPPED and a business-flow-violation event is emitted when it was
not PAID; otherwise only a PAID order may ship. -/
def shipOrder (api6BusinessFlow : Bool) (user : Principal) (order : Order) : OpResult :=
  if !(order.userId == user.id) then
    { response := .err "Order not found", events := [] }
  else if api6BusinessFlow then
    { response := .ok { order with status := .Shipped },
      events :=
        if !(order.status == OrderStatus.Paid) then
          [SecEvent.businessFlowViolation user.id "checkout" "ship_before_pay"]
        else [] }
  else if !(order.status == OrderStatus.Paid) then
    { response := .err "Order must be paid before shipping", events := [] }
  else
    { response := .ok { order with status := .Shipped }, events := [] }

/-- Translation of getOrder (orderController). With VULN_API1_BOLA on, any
authenticated user reads any existing order and a bola event is logged;
otherwise the findFirst drops the owner filter only for ADMIN, so a foreign
order yields a 404. -/
def getOrder (api1Bola : Bool) (user : Principal) (order : Order) : OpResult :=
  if api1Bola then
    { response := .ok order, events := [.bolaAttempt user.id order.id "order"] }
  else if user.role == Role.Admin || order.userId == user.id then
    { response := .ok order, events := [] }
  else
    { response := .err "Order not found", events := [] }

/-- Item catalog record as read by the cart total computation. -/
structure Item where
  id : Nat
  price : ℚ
deriving DecidableEq

/-- Merge step of addToCart: the first existing line with the same itemId receives
the quantity (currentItems.findIndex followed by an in-place add), otherwise a
new line is pushed at the end. -/
def addLine : List OrderItem → Nat → ℚ → List OrderItem
  | [], itemId, qty => [{ itemId := itemId, qty := qty }]
  | l :: ls, itemId, qty =>
    if l.itemId == itemId then { l with qty := l.qty + qty } :: ls
    else l :: addLine ls itemId qty

/-- Total recomputation loop of addToCart: prices are looked up per line, and a line
whose item is missing from the catalog contributes nothing. -/
def calcTotal (lookup : Nat → Option Item) (items : List OrderItem) : ℚ :=
  items.foldl (fun total l =>
    match lookup l.itemId with
    | some dbItem => total + dbItem.price * l.qty
    | none => total) 0

/-- Translation of addToCart (orderController). existingCart is the result of the
findFirst for the caller's CART order: when absent a fresh cart is created with
the single line and total 0; when present the line is merged in and the total
recomputed. -/
def addToCart (lookup : Nat → Option Item) (user : Principal) (existingCart : Option Order)
    (itemId : Nat) (qty : ℚ) : Order :=
  match existingCart with
  | none =>
    { id := 0, userId := user.id, status := .Cart,
      items := [{ itemId := itemId, qty := qty }], total := 0,
      discountCode := none, paid := false }
  | some cart =>
    let newItems := addLine cart.items itemId qty
    { cart with items := newItems, total := calcTotal lookup newItems }

/-- Persisted user row fields read by getUser (userController). -/
structure UserRecord where
  id : Nat
  email : String
  name : String
  role : Role
deriving DecidableEq

/-- Translation of getUser (userController). With VULN_API1_BOLA on, any
authenticated user reads any user and a bola event is logged; otherwise access
is allowed only to the user themself or an ADMIN. -/
def getUser (api1Bola : Bool) (user : Principal) (target : UserRecord) :
    Resp UserRecord × List SecEvent :=
  if api1Bola then
    (.ok target, [.bolaAttempt user.id target.id "user"])
  else if user.id == target.id || user.role == Role.Admin then
    (.ok target, [])
  else
    (.err "Access denied", [])

/-- Registration payload fields relevant to property-level policy
(CreateUserRequest): the optional role field is the restricted one. -/
structure RegisterPayload where
  email : String
  name : String
  role : Option Role
deriving DecidableEq

/-- User row created by register; a role of none means the column was left to the
database default. -/
structure NewUser where
  email : String
  name : String
  role : Option Role
deriving DecidableEq

/-- Translation of register (userController): with VULN_API3_BOPLA on, a role
present in the body is persisted and a bopla event logged; otherwise the role
is forced to CUSTOMER. -/
def register (api3Bopla : Bool) (p : RegisterPayload) : NewUser × List SecEvent :=
  if api3Bopla then
    match p.role with
    | some r => ({ email := p.email, name := p.name, role := some r }, [.boplaAttempt 0 "role"])
    | none => ({ email := p.email, name := p.name, role := none }, [])
  else
    ({ email := p.email, name := p.name, role := some Role.Customer }, [])

/-- Create-item payload (CreateItemRequest): name, description and price are
required; costPrice and supplierEmail are the restricted properties. -/
structure CreateItemPayload where
  name : String
  description : String
  price : ℚ
  costPrice : Option ℚ
  supplierEmail : Option String
deriving DecidableEq

/-- Persisted item row fields written by createItem and updateItem. -/
structure ItemRecord where
  name : String
  description : String
  price : ℚ
  costPrice : ℚ
  supplierEmail : String
  createdByUserId : Nat
deriving DecidableEq

/-- Update-item payload (UpdateItemRequest): every field optional. -/
structure UpdateItemPayload where
  name : Option String
  description : Option String
  price : Option ℚ
  costPrice : Option ℚ
  supplierEmail : Option String
deriving DecidableEq

/-- Prisma update semantics: a provided field overwrites the column, an absent one
keeps the stored value. -/
def upd {α : Type} (field : Option α) (old : α) : α :=
  match field with
  | some v => v
  | none => old

/-- Translation of createItem (itemController). With VULN_API3_BOPLA on, the payload
is spread into the row with costPrice and supplierEmail defaulted through the
JavaScript or-operator, and bopla events record truthy restricted fields;
otherwise only whitelisted fields are taken and the restricted columns get fixed
defaults. -/
def createItem (api3Bopla : Bool) (user : Principal) (p : CreateItemPayload) :
    ItemRecord × List SecEvent :=
  if api3Bopla then
    ({ name := p.name, description := p.description, price := p.price,
       costPrice := jsOrQ p.costPrice 0, supplierEmail := jsOrS p.supplierEmail "",
       createdByUserId := user.id },
     (if truthyQ p.costPrice then [SecEvent.boplaAttempt user.id "costPrice"] else []) ++
     (if truthyStr p.supplierEmail then [SecEvent.boplaAttempt user.id "supplierEmail"] else []))
  else
    ({ name := p.name, description := p.description, price := p.price,
       costPrice := 0, supplierEmail := "default@supplier.com",
       createdByUserId := user.id }, [])

/-- Translation of updateItem (itemController). With VULN_API3_BOPLA on, the whole
payload is passed to the prisma update; otherwise restricted fields are filtered
out by the whitelist, so the stored costPrice and supplierEmail survive. -/
def updateItem (api3Bopla : Bool) (user : Principal) (existing : ItemRecord)
    (p : UpdateItemPayload) : ItemRecord × List SecEvent :=
  if api3Bopla then
    ({ existing with
        name := upd p.name existing.name,
        description := upd p.description existing.description,
        price := upd p.price existing.price,
        costPrice := upd p.costPrice existing.costPrice,
        supplierEmail := upd p.supplierEmail existing.supplierEmail },
     (if truthyQ p.costPrice then [SecEvent.boplaAttempt user.id "costPrice"] else []) ++
     (if truthyStr p.supplierEmail then [SecEvent.boplaAttempt user.id "supplierEmail"] else []))
  else
    ({ existing with
        name := upd p.name existing.name,
        description := upd p.description existing.description,
        price := upd p.price existing.price }, [])

/-- Decoded JWT claims used by the middleware (JWTPayload): the subject user id and
an optional expiry in epoch seconds. -/
structure TokenPayload where
  userId : Nat
  exp : Option Int
deriving DecidableEq

/-- A presented token: whether its HS256 signature verifies under the server
secret, whether its header algorithm is none (unsigned), and its claims. -/
structure Token where
  validSig : Bool
  algNone : Bool
  payload : TokenPayload
deriving DecidableEq

/-- Modelled from the jsonwebtoken library called by middleware/auth: verify
accepts a token whose signature matches an allowed algorithm (alg none only
when explicitly listed) and whose exp claim, when present, still lies in the
future. No call site in this code base sets ignoreExpiration to true, so the
expiry check is always enforced, as the library does by default. -/
def jwtVerify (allowAlgNone : Bool) (nowMs : Int) (t : Token) : Option TokenPayload :=
  if (t.validSig || (allowAlgNone && t.algNone))
      && (match t.payload.exp with
          | some e => decide (nowMs < e * 1000)
          | none => true) then
    some t.payload
  else
    none

/-- Outcome of the authentication middleware: an attached principal or a 401 body. -/
inductive AuthOutcome
  | ok (p : Principal)
  | unauthorized (msg : String)
deriving DecidableEq

/-- Translation of authenticateToken (middleware/auth). With VULN_API2_BROKEN_AUTH
on, the token may come from the query string (a well-formed Bearer header wins
when both are present), verification falls back to a second attempt allowing
alg none, and a successful decode whose exp lies in the past is logged and
waved through; otherwise only the header is read and a single HS256
verification with expiry enforcement is performed. The findUser argument is
the prisma user fetch that sources the principal role. -/
def authenticateToken (api2BrokenAuth : Bool) (nowMs : Int)
    (headerToken queryToken : Option Token) (findUser : Nat → Option Principal) :
    AuthOutcome × List SecEvent :=
  let token? : Option Token :=
    if api2BrokenAuth then
      match headerToken with
      | some t => some t
      | none => queryToken
    else
      headerToken
  match token? with
  | none =>
    (.unauthorized (if api2BrokenAuth then "Token required" else "Authorization header required"),
     [])
  | some t =>
    if api2BrokenAuth then
      match jwtVerify false nowMs t with
      | some decoded =>
        let warnEvents : List SecEvent :=
          match decoded.exp with
          | some e => if decide (nowMs ≥ e * 1000) then [SecEvent.expiredTokenWarn] else []
          | none => []
        (match findUser decoded.userId with
         | some u => (.ok u, warnEvents)
         | none => (.unauthorized "User not found", warnEvents))
      | none =>
        match jwtVerify true nowMs t with
        | some decoded =>
          (match findUser decoded.userId with
           | some u => (.ok u, [])
           | none => (.unauthorized "User not found", []))
        | none => (.unauthorized "Invalid token", [])
    else
      match jwtVerify false nowMs t with
      | some decoded =>
        (match findUser decoded.userId with
         | some u => (.ok u, [])
         | none => (.unauthorized "User not found", []))
      | none => (.unauthorized "Invalid or expired token", [])

/-- Sample customer principal owning the sample orders. -/
def alice : Principal := { id := 1, role := Role.Customer }

/-- Sample cart order whose two lines price out to 25 in the sample catalog. -/
def cartOrder : Order :=
  { id := 10, userId := 1, status := .Cart,
    items := [{ itemId := 100, qty := 2 }, { itemId := 101, qty := 1 }],
    total := 25, discountCode := none, paid := false }

/-- Sample placed order with total 25, the concrete scenario of the spec. -/
def placedOrder : Order := { cartOrder with status := .Placed }

/-- Sample placed order with total 0, a checked-out empty cart. -/
def zeroOrder : Order := { placedOrder with items := [], total := 0 }

/-- Sample paid order. -/
def paidOrder : Order := { placedOrder with status := .Paid, paid := true }

/-- Sample shipped order. -/
def shippedOrder : Order := { paidOrder with status := .Shipped }

/-- Sample placed order carrying the FREESHIP discount with total 15. -/
def discountedOrder : Order :=
  { placedOrder with total := 15, discountCode := some "FREESHIP" }

/-- Sample catalog lookup: item 100 costs 10 and item 101 costs 5. -/
def catalog : Nat → Option Item
  | 100 => some { id := 100, price := 10 }
  | 101 => some { id := 101, price := 5 }
  | _ => none

/-- Sample user store resolving id 1 to the sample customer. -/
def usersDb : Nat → Option Principal
  | 1 => some alice
  | _ => none

/-- C1: under strict business-flow policy every status value lies in the four-state
lifecycle and startCheckout, pay and ship each move the status exactly one step
forward: Cart to Placed for startCheckout, Placed to Paid for pay, Paid to
Shipped for ship; no successful call moves a status backward or skips a state. -/
theorem strict_lifecycle_forward (user : Principal) (order : Order)
    (paid : Option Bool) (amount : Option ℚ) (currency : Option String) (stub : Bool) :
    (order.status = .Cart ∨ order.status = .Placed ∨ order.status = .Paid ∨
      order.status = .Shipped) ∧
    (∀ o₁, (startCheckout user order).response = .ok o₁ →
      order.status = .Cart ∧ o₁.status = .Placed ∧
      order.status.rank + 1 = o₁.status.rank) ∧
    (∀ o₂, (processPayment false false user order paid amount currency stub).response = .ok o₂ →
      order.status = .Placed ∧ o₂.status = .Paid ∧
      order.status.rank + 1 = o₂.status.rank) ∧
    (∀ o₃, (shipOrder false user order).response = .ok o₃ →
      order.status = .Paid ∧ o₃.status = .Shipped ∧
      order.status.rank + 1 = o₃.status.rank) := by
  refine ⟨by cases order.status <;> simp, ?_, ?_, ?_⟩
  · intro o₁ h
    unfold startCheckout at h
    repeat' split at h
    any_goals simp at h
    all_goals subst h
    all_goals simp_all [OrderStatus.rank]
  · intro o₂ h
    unfold processPayment at h
    repeat' split at h
    any_goals simp at h
    all_goals subst h
    all_goals simp_all [OrderStatus.rank]
  · intro o₃ h
    unfold shipOrder at h
    repeat' split at h
    any_goals simp at h
    all_goals subst h
    all_goals simp_all [OrderStatus.rank]

/-- Witness for C1 at the sample orders: the checkout, payment and shipping steps
of the concrete lifecycle each advance one state. -/
theorem strict_lifecycle_forward_witness :
    (cartOrder.status = .Cart ∧ placedOrder.status = .Placed ∧
      cartOrder.status.rank + 1 = placedOrder.status.rank) ∧
    (placedOrder.status = .Placed ∧ paidOrder.status = .Paid ∧
      placedOrder.status.rank + 1 = paidOrder.status.rank) ∧
    (paidOrder.status = .Paid ∧ shippedOrder.status = .Shipped ∧
      paidOrder.status.rank + 1 = shippedOrder.status.rank) :=
  ⟨(strict_lifecycle_forward alice cartOrder none none none true).2.1 placedOrder (by decide),
   (strict_lifecycle_forward alice placedOrder none none none true).2.2.1
     { placedOrder with status := .Paid, paid := true } (by decide),
   (strict_lifecycle_forward alice paidOrder none none none true).2.2.2 shippedOrder (by decide)⟩

/-- C2: pay on an owned PLACED order: under strict policy the result is the same for
any client paid field and the transition to PAID happens exactly when the stub
succeeds; under permissive policy (either flag) paid set to true yields PAID
with the stub never called. -/
theorem pay_stub_vs_client_assertion (user : Principal) (order : Order)
    (paid₁ paid₂ : Option Bool) (amount : Option ℚ) (currency : Option String) (stub : Bool)
    (api6 api10 : Bool)
    (hown : order.userId = user.id) (hst : order.status = .Placed) :
    (processPayment false false user order paid₁ amount currency stub =
      processPayment false false user order paid₂ amount currency stub) ∧
    ((processPayment false false user order paid₁ amount currency stub).response =
      if stub then .ok { order with status := .Paid, paid := true }
      else .err "Payment failed") ∧
    ((api6 || api10) = true →
      (processPayment api6 api10 user order (some true) amount currency stub).response =
        .ok { order with status := .Paid, paid := true } ∧
      (processPayment api6 api10 user order (some true) amount currency stub).stubCalled =
        false) := by
  refine ⟨?_, ?_, ?_⟩
  · simp [processPayment, hown, hst]
  · cases stub <;> simp [processPayment, hown, hst]
  · intro hperm
    constructor <;> simp [processPayment, hown, hst, hperm]

/-- Witness for C2 at the sample placed order: with a failing stub the strict call
ignores paid true and fails, while the permissive call accepts it with the stub
uncalled. -/
theorem pay_stub_vs_client_assertion_witness :
    (processPayment false false alice placedOrder (some true) none none false =
      processPayment false false alice placedOrder (some false) none none false) ∧
    ((processPayment false false alice placedOrder (some true) none none false).response =
      .err "Payment failed") ∧
    ((processPayment true false alice placedOrder (some true) none none false).response =
      .ok { placedOrder with status := .Paid, paid := true } ∧
     (processPayment true false alice placedOrder (some true) none none false).stubCalled =
      false) :=
  ⟨(pay_stub_vs_client_assertion alice placedOrder (some true) (some false) none none false
      true false rfl rfl).1,
   (pay_stub_vs_client_assertion alice placedOrder (some true) (some false) none none false
      true false rfl rfl).2.1,
   (pay_stub_vs_client_assertion alice placedOrder (some true) (some false) none none false
      true false rfl rfl).2.2 rfl⟩

/-- C3: object-level read policy: strict getOrder and getUser allow exactly the
owner or an ADMIN, and permissive mode allows any authenticated principal to
read any existing resource. -/
theorem object_level_read_policy (p : Principal) (o : Order) (u : UserRecord) :
    ((getOrder false p o).response.isOk = true ↔ (p.id = o.userId ∨ p.role = Role.Admin)) ∧
    (getOrder true p o).response.isOk = true ∧
    ((getUser false p u).1.isOk = true ↔ (p.id = u.id ∨ p.role = Role.Admin)) ∧
    (getUser true p u).1.isOk = true := by
  refine ⟨?_, by simp [getOrder, Resp.isOk], ?_, by simp [getUser, Resp.isOk]⟩
  · by_cases h : p.id = o.userId ∨ p.role = Role.Admin
    · have hc : p.role = Role.Admin ∨ o.userId = p.id := by
        rcases h with h | h
        · exact Or.inr h.symm
        · exact Or.inl h
      simp [getOrder, Resp.isOk, h, hc]
    · have hc : ¬(p.role = Role.Admin ∨ o.userId = p.id) := by
        rintro (hh | hh)
        · exact h (Or.inr hh)
        · exact h (Or.inl hh.symm)
      simp [getOrder, Resp.isOk, h, hc]
  · by_cases h : p.id = u.id ∨ p.role = Role.Admin
    · simp [getUser, Resp.isOk, h]
    · simp [getUser, Resp.isOk, h]

/-- C4: flag resolution: with SAFE_MODE exactly true the effective flag value is
the negation of the raw value, otherwise it equals the raw value, and a flag
missing from the environment has raw value true, the vulnerable default. -/
theorem safe_mode_flag_resolution (env : String → Option String) (flagName : String) :
    (env "SAFE_MODE" = some "true" →
      getSafeModeVulnerabilityFlag env flagName =
        !(getVulnerabilityFlag (env flagName) true)) ∧
    (env "SAFE_MODE" ≠ some "true" →
      getSafeModeVulnerabilityFlag env flagName = getVulnerabilityFlag (env flagName) true) ∧
    (env flagName = none → getVulnerabilityFlag (env flagName) true = true) := by
  refine ⟨?_, ?_, ?_⟩
  · intro h
    simp [getSafeModeVulnerabilityFlag, h]
  · intro h
    simp [getSafeModeVulnerabilityFlag, h]
  · intro h
    simp [getVulnerabilityFlag, h]

/-- Environment with safe mode on and every vulnerability flag unset. -/
def envSafe : String → Option String
  | "SAFE_MODE" => some "true"
  | _ => none

/-- Environment with safe mode off and the bola flag set to false. -/
def envRaw : String → Option String
  | "VULN_API1_BOLA" => some "false"
  | _ => none

/-- Witness for C4 at two concrete environments: safe mode inverts the defaulted
raw value, no safe mode passes the raw value through, and the unset flag
defaults to true. -/
theorem safe_mode_flag_resolution_witness :
    (getSafeModeVulnerabilityFlag envSafe "VULN_API1_BOLA" =
      !(getVulnerabilityFlag (envSafe "VULN_API1_BOLA") true)) ∧
    (getSafeModeVulnerabilityFlag envRaw "VULN_API1_BOLA" =
      getVulnerabilityFlag (envRaw "VULN_API1_BOLA") true) ∧
    (getVulnerabilityFlag (envSafe "VULN_API1_BOLA") true = true) :=
  ⟨(safe_mode_flag_resolution envSafe "VULN_API1_BOLA").1 (by decide),
   (safe_mode_flag_resolution envRaw "VULN_API1_BOLA").2.1 (by decide),
   (safe_mode_flag_resolution envSafe "VULN_API1_BOLA").2.2 (by decide)⟩

/-- Counterexample to C5 as stated: under permissive policy a call with a valid code
need not strictly change the total: FREESHIP on a placed order whose total is
already 0 leaves the total at 0. -/
theorem coupon_zero_total_unchanged :
    (applyCoupon true alice zeroOrder "FREESHIP").response =
      .ok { zeroOrder with discountCode := some "FREESHIP" } ∧
    ({ zeroOrder with discountCode := some "FREESHIP" } : Order).total = zeroOrder.total := by
  constructor
  · norm_num [applyCoupon, couponTotal, jsMax, truthyStr, zeroOrder, placedOrder, cartOrder,
      alice]
  · norm_num [zeroOrder, placedOrder, cartOrder]

/-- C5 amended: strict policy denies a second coupon on an order whose discountCode
holds a nonempty code, with nothing persisted; permissive policy recomputes
from the current total on every valid-code call, strictly decreasing the total
whenever the current total is positive; the concrete FREESHIP scenario runs
25 to 15 then a strict denial, and 25 to 15 to 5 permissively. -/
theorem coupon_idempotency_policy (user : Principal) (order : Order) (code : String)
    (hown : order.userId = user.id)
    (hst : order.status = .Placed ∨ order.status = .Paid) :
    (truthyStr order.discountCode = true →
      applyCoupon false user order code =
        { response := .err "Coupon already applied", events := [] }) ∧
    ((code = "FREESHIP" ∨ code = "HALFPRICE") → 0 < order.total →
      ∀ o₂, (applyCoupon true user order code).response = .ok o₂ →
        o₂.total = couponTotal code order.total ∧ o₂.total < order.total ∧
        o₂.discountCode = some code) ∧
    ((applyCoupon false alice placedOrder "FREESHIP").response = .ok discountedOrder) ∧
    ((applyCoupon false alice discountedOrder "FREESHIP").response =
      .err "Coupon already applied") ∧
    ((applyCoupon true alice placedOrder "FREESHIP").response = .ok discountedOrder) ∧
    ((applyCoupon true alice discountedOrder "FREESHIP").response =
      .ok { discountedOrder with total := 5 }) := by
  refine ⟨?_, ?_,
    by norm_num [applyCoupon, couponTotal, jsMax, truthyStr, discountedOrder, placedOrder,
      cartOrder, alice],
    by decide,
    by norm_num [applyCoupon, couponTotal, jsMax, truthyStr, discountedOrder, placedOrder,
      cartOrder, alice],
    by norm_num [applyCoupon, couponTotal, jsMax, truthyStr, discountedOrder, placedOrder,
      cartOrder, alice]⟩
  · intro h
    rcases hst with hst | hst <;> simp [applyCoupon, hown, hst, h]
  · rintro (rfl | rfl) hpos o₂ h2
    · rcases hst with hst | hst <;>
      · simp [applyCoupon, hown, hst] at h2
        subst h2
        refine ⟨rfl, ?_, rfl⟩
        have hct : couponTotal "FREESHIP" order.total = jsMax 0 (order.total - 10) := rfl
        show couponTotal "FREESHIP" order.total < order.total
        rw [hct]
        unfold jsMax
        split <;> linarith
    · rcases hst with hst | hst <;>
      · simp [applyCoupon, hown, hst] at h2
        subst h2
        refine ⟨rfl, ?_, rfl⟩
        have hct : couponTotal "HALFPRICE" order.total = order.total * (1 / 2) := rfl
        show couponTotal "HALFPRICE" order.total < order.total
        rw [hct]
        linarith

/-- Witness for C5 amended at the discounted sample order: the second strict call is
denied, and a permissive HALFPRICE call strictly decreases the positive total. -/
theorem coupon_idempotency_policy_witness :
    (applyCoupon false alice discountedOrder "YOGA" =
      { response := .err "Coupon already applied", events := [] }) ∧
    (({ discountedOrder with total := 15 / 2, discountCode := some "HALFPRICE" } : Order).total =
        couponTotal "HALFPRICE" discountedOrder.total ∧
      ({ discountedOrder with total := 15 / 2, discountCode := some "HALFPRICE" } : Order).total <
        discountedOrder.total ∧
      ({ discountedOrder with
          total := 15 / 2, discountCode := some "HALFPRICE" } : Order).discountCode =
        some "HALFPRICE") :=
  ⟨(coupon_idempotency_policy alice discountedOrder "YOGA" rfl (Or.inl rfl)).1 (by decide),
   (coupon_idempotency_policy alice discountedOrder "HALFPRICE" rfl (Or.inl rfl)).2.1
     (Or.inr rfl) (by norm_num [discountedOrder, placedOrder, cartOrder])
     { discountedOrder with total := 15 / 2, discountCode := some "HALFPRICE" }
     (by
      norm_num [applyCoupon, couponTotal, jsMax, truthyStr, discountedOrder, placedOrder,
        cartOrder, alice]
      decide)⟩

/-- Counterexample to C8 as stated: with the business-flow flag on, ship succeeds on
an order still in the CART state, so ship is not valid only in PLACED or PAID. -/
theorem ship_from_cart_permissive :
    cartOrder.status = OrderStatus.Cart ∧
    (shipOrder true alice cartOrder).response = .ok { cartOrder with status := .Shipped } := by
  decide

/-- C8 amended: strict ship denies any non-PAID owned order unchanged, in particular
a PLACED order gets the lifecycle error, and ships a PAID order; permissive ship
succeeds from every status, emitting exactly one business-flow-violation event
precisely when the prior status was not PAID. -/
theorem ship_policy (user : Principal) (order : Order) (hown : order.userId = user.id) :
    (order.status ≠ .Paid → shipOrder false user order =
      { response := .err "Order must be paid before shipping", events := [] }) ∧
    (order.status = .Paid →
      (shipOrder false user order).response = .ok { order with status := .Shipped }) ∧
    ((shipOrder true user order).response = .ok { order with status := .Shipped }) ∧
    ((shipOrder true user order).events =
      if order.status = .Paid then []
      else [SecEvent.businessFlowViolation user.id "checkout" "ship_before_pay"]) := by
  refine ⟨?_, ?_, ?_, ?_⟩
  · intro h
    simp [shipOrder, hown, h]
  · intro h
    simp [shipOrder, hown, h]
  · by_cases h : order.status = .Paid <;> simp [shipOrder, hown, h]
  · by_cases h : order.status = .Paid <;> simp [shipOrder, hown, h]

/-- Witness for C8 amended: strict ship on the placed sample order is denied and on
the paid sample order succeeds. -/
theorem ship_policy_witness :
    (shipOrder false alice placedOrder =
      { response := .err "Order must be paid before shipping", events := [] }) ∧
    ((shipOrder false alice paidOrder).response = .ok { paidOrder with status := .Shipped }) :=
  ⟨(ship_policy alice placedOrder rfl).1 (by decide),
   (ship_policy alice paidOrder rfl).2.1 rfl⟩

/-- Counterexample to C10 as stated: the empty string is a code that is neither
FREESHIP nor HALFPRICE; a strict call persists it, yet the follow-up strict call
is not denied, because the stored empty code is falsy. -/
theorem empty_coupon_does_not_consume :
    ("" : String) ≠ "FREESHIP" ∧ ("" : String) ≠ "HALFPRICE" ∧
    ((applyCoupon false alice placedOrder "").response =
      .ok { placedOrder with discountCode := some "" }) ∧
    ((applyCoupon false alice { placedOrder with discountCode := some "" } "FREESHIP").response =
      .ok discountedOrder) := by
  refine ⟨by decide, by decide, by decide, ?_⟩
  norm_num [applyCoupon, couponTotal, jsMax, truthyStr, discountedOrder, placedOrder, cartOrder,
    alice]

/-- C10 amended: a strict applyCoupon with a nonempty code that is neither FREESHIP
nor HALFPRICE on an owned PLACED or PAID order without a coupon succeeds,
leaves the total unchanged and persists the code, after which every further
strict call on the updated order is denied. -/
theorem unknown_coupon_consumes_allowance (user : Principal) (order : Order)
    (code code₂ : String)
    (hown : order.userId = user.id) (hst : order.status = .Placed ∨ order.status = .Paid)
    (hfree : truthyStr order.discountCode = false)
    (hne : code ≠ "") (h1 : code ≠ "FREESHIP") (h2 : code ≠ "HALFPRICE") :
    (applyCoupon false user order code).response =
      .ok { order with total := order.total, discountCode := some code } ∧
    (applyCoupon false user { order with total := order.total, discountCode := some code }
        code₂).response =
      .err "Coupon already applied" := by
  have hct : couponTotal code order.total = order.total := by
    simp [couponTotal, h1, h2]
  constructor
  · rcases hst with hst | hst <;> simp [applyCoupon, hown, hst, hfree, hct]
  · rcases hst with hst | hst <;> simp [applyCoupon, hown, hst, truthyStr, hne]

/-- Witness for C10 amended at the placed sample order with an unknown code. -/
theorem unknown_coupon_consumes_allowance_witness :
    (applyCoupon false alice placedOrder "YOGA20").response =
      .ok { placedOrder with total := placedOrder.total, discountCode := some "YOGA20" } ∧
    (applyCoupon false alice
        { placedOrder with total := placedOrder.total, discountCode := some "YOGA20" }
        "FREESHIP").response =
      .err "Coupon already applied" :=
  unknown_coupon_consumes_allowance alice placedOrder "YOGA20" "FREESHIP" rfl (Or.inl rfl)
    (by decide) (by decide) (by decide) (by decide)

/-- Sample create-item payload whose restricted costPrice is 0, coinciding with the
strict default. -/
def matPayload : CreateItemPayload :=
  { name := "Mat", description := "Basic mat", price := 20,
    costPrice := some 0, supplierEmail := none }

/-- Counterexample to C6 as stated: a strict createItem whose payload carries
costPrice 0 persists costPrice 0, which is exactly the payload value for that
restricted field, so the persisted record is not free of payload values for
restricted fields. -/
theorem strict_create_keeps_coincident_costPrice :
    (createItem false alice matPayload).1.costPrice = 0 ∧
    matPayload.costPrice = some 0 := by
  decide

/-- C6 amended: under strict property-level policy the persisted restricted fields
are independent of the payload: createItem stores costPrice 0 and supplierEmail
default@supplier.com, updateItem keeps the stored values, register forces role
CUSTOMER; under permissive policy every restricted field present in the payload
is persisted unchanged. -/
theorem restricted_fields_policy (u : Principal) (cp : CreateItemPayload)
    (ex : ItemRecord) (up : UpdateItemPayload) (rp : RegisterPayload) :
    ((createItem false u cp).1.costPrice = 0 ∧
      (createItem false u cp).1.supplierEmail = "default@supplier.com") ∧
    ((updateItem false u ex up).1.costPrice = ex.costPrice ∧
      (updateItem false u ex up).1.supplierEmail = ex.supplierEmail) ∧
    (register false rp).1.role = some Role.Customer ∧
    (∀ v, cp.costPrice = some v → (createItem true u cp).1.costPrice = v) ∧
    (∀ s, cp.supplierEmail = some s → (createItem true u cp).1.supplierEmail = s) ∧
    (∀ v, up.costPrice = some v → (updateItem true u ex up).1.costPrice = v) ∧
    (∀ s, up.supplierEmail = some s → (updateItem true u ex up).1.supplierEmail = s) ∧
    (∀ r, rp.role = some r → (register true rp).1.role = some r) := by
  refine ⟨⟨rfl, rfl⟩, ⟨rfl, rfl⟩, rfl, ?_, ?_, ?_, ?_, ?_⟩
  · intro v hv
    by_cases h0 : v = 0
    · subst h0
      simp [createItem, jsOrQ, hv]
    · simp [createItem, jsOrQ, hv, h0]
  · intro s hs
    by_cases h0 : s = ""
    · subst h0
      simp [createItem, jsOrS, hs]
    · simp [createItem, jsOrS, hs, h0]
  · intro v hv
    simp [updateItem, upd, hv]
  · intro s hs
    simp [updateItem, upd, hs]
  · intro r hr
    simp [register, hr]

/-- Sample permissive create payload carrying both restricted item fields. -/
def fullItemPayload : CreateItemPayload :=
  { name := "Block", description := "Cork block", price := 12,
    costPrice := some 3, supplierEmail := some "supplier@corp.example" }

/-- Sample permissive update payload touching only the restricted item fields. -/
def fullUpdatePayload : UpdateItemPayload :=
  { name := none, description := none, price := none,
    costPrice := some 4, supplierEmail := some "cheap@corp.example" }

/-- Sample stored item row to be updated. -/
def baseItem : ItemRecord :=
  { name := "Block", description := "Cork block", price := 12, costPrice := 2,
    supplierEmail := "orig@corp.example", createdByUserId := 1 }

/-- Sample registration payload asserting the ADMIN role. -/
def adminRegister : RegisterPayload :=
  { email := "eve@demo.local", name := "Eve", role := some Role.Admin }

/-- Witness for C6 amended: the permissive calls persist the payload values of
every restricted field unchanged at the sample payloads. -/
theorem restricted_fields_policy_witness :
    (createItem true alice fullItemPayload).1.costPrice = 3 ∧
    (createItem true alice fullItemPayload).1.supplierEmail = "supplier@corp.example" ∧
    (updateItem true alice baseItem fullUpdatePayload).1.costPrice = 4 ∧
    (updateItem true alice baseItem fullUpdatePayload).1.supplierEmail = "cheap@corp.example" ∧
    (register true adminRegister).1.role = some Role.Admin :=
  ⟨(restricted_fields_policy alice fullItemPayload baseItem fullUpdatePayload
      adminRegister).2.2.2.1 3 rfl,
   (restricted_fields_policy alice fullItemPayload baseItem fullUpdatePayload
      adminRegister).2.2.2.2.1 "supplier@corp.example" rfl,
   (restricted_fields_policy alice fullItemPayload baseItem fullUpdatePayload
      adminRegister).2.2.2.2.2.1 4 rfl,
   (restricted_fields_policy alice fullItemPayload baseItem fullUpdatePayload
      adminRegister).2.2.2.2.2.2.1 "cheap@corp.example" rfl,
   (restricted_fields_policy alice fullItemPayload baseItem fullUpdatePayload
      adminRegister).2.2.2.2.2.2.2 Role.Admin rfl⟩

/-- Sample token with a valid HS256 signature whose exp elapsed one hour before the
sample clock. -/
def expiredToken : Token :=
  { validSig := true, algNone := false, payload := { userId := 1, exp := some 0 } }

/-- Sample clock one hour past the expiry of expiredToken, in milliseconds. -/
def oneHourLaterMs : Int := 3600000

/-- C7 at the failing input: a validly signed token that expired one hour ago is
rejected with no log event in permissive broken-auth mode, because both verify
attempts enforce expiry, exactly as in strict mode; the log-and-accept branch
is unreachable even though the subject user resolves in the store. -/
theorem expired_token_rejected_in_both_modes :
    authenticateToken true oneHourLaterMs (some expiredToken) none usersDb =
      (.unauthorized "Invalid token", []) ∧
    authenticateToken false oneHourLaterMs (some expiredToken) none usersDb =
      (.unauthorized "Invalid or expired token", []) ∧
    usersDb expiredToken.payload.userId = some alice := by
  decide

/-- Contribution of one cart line to the recomputed total: catalog price times
quantity, or nothing when the item is missing. -/
def lineTotal (lookup : Nat → Option Item) (l : OrderItem) : ℚ :=
  match lookup l.itemId with
  | some dbItem => dbItem.price * l.qty
  | none => 0

/-- Appending case of the merge step: with no line matching the item id, addLine
pushes a new line at the end. -/
theorem addLine_of_not_mem (items : List OrderItem) (itemId : Nat) (qty : ℚ)
    (h : ∀ x ∈ items, x.itemId ≠ itemId) :
    addLine items itemId qty = items ++ [{ itemId := itemId, qty := qty }] := by
  induction items with
  | nil => rfl
  | cons l ls ih =>
    have hl : l.itemId ≠ itemId := h l (List.mem_cons_self l ls)
    have hrec := ih fun x hx => h x (List.mem_cons_of_mem l hx)
    simp only [addLine]
    split
    next hc => simp_all
    next hc => simp_all

/-- Merging case of the merge step: the first line matching the item id receives
the quantity and the rest of the list is unchanged. -/
theorem addLine_of_mem (pre : List OrderItem) (l : OrderItem) (post : List OrderItem)
    (itemId : Nat) (qty : ℚ)
    (hpre : ∀ x ∈ pre, x.itemId ≠ itemId) (hl : l.itemId = itemId) :
    addLine (pre ++ l :: post) itemId qty = pre ++ { l with qty := l.qty + qty } :: post := by
  induction pre with
  | nil =>
    simp only [List.nil_append, addLine]
    split
    next => rfl
    next hc => simp_all
  | cons p ps ih =>
    have hp : p.itemId ≠ itemId := hpre p (List.mem_cons_self p ps)
    have hrec := ih fun x hx => hpre x (List.mem_cons_of_mem p hx)
    simp only [List.cons_append, addLine]
    split
    next hc => simp_all
    next hc => simp_all

/-- Accumulator form of the total recomputation loop. -/
theorem calcTotal_go (lookup : Nat → Option Item) (items : List OrderItem) (a : ℚ) :
    items.foldl (fun total l =>
      match lookup l.itemId with
      | some dbItem => total + dbItem.price * l.qty
      | none => total) a = a + (items.map (lineTotal lookup)).sum := by
  induction items generalizing a with
  | nil => simp
  | cons l ls ih =>
    simp only [List.foldl_cons, List.map_cons, List.sum_cons]
    rw [ih]
    unfold lineTotal
    rcases hh : lookup l.itemId with _ | it <;> simp [hh] <;> ring

/-- The recomputation loop equals the sum of per-line contributions. -/
theorem calcTotal_eq_sum (lookup : Nat → Option Item) (items : List OrderItem) :
    calcTotal lookup items = (items.map (lineTotal lookup)).sum := by
  unfold calcTotal
  rw [calcTotal_go]
  simp

/-- C9: addToCart on an existing cart merges the quantity into the first line with
the same item id or appends a new line, and the resulting total is the sum of
catalog price times quantity over all resulting lines, with a line whose item
is missing from the catalog contributing nothing. -/
theorem addToCart_merge_and_total (lookup : Nat → Option Item) (user : Principal)
    (cart : Order) (itemId : Nat) (qty : ℚ) (hst : cart.status = .Cart) :
    ((∀ x ∈ cart.items, x.itemId ≠ itemId) →
      (addToCart lookup user (some cart) itemId qty).items =
        cart.items ++ [{ itemId := itemId, qty := qty }]) ∧
    (∀ pre l post, cart.items = pre ++ l :: post → (∀ x ∈ pre, x.itemId ≠ itemId) →
      l.itemId = itemId →
      (addToCart lookup user (some cart) itemId qty).items =
        pre ++ { l with qty := l.qty + qty } :: post) ∧
    (addToCart lookup user (some cart) itemId qty).total =
      ((addToCart lookup user (some cart) itemId qty).items.map (lineTotal lookup)).sum := by
  refine ⟨?_, ?_, ?_⟩
  · intro h
    simp [addToCart, addLine_of_not_mem cart.items itemId qty h]
  · intro pre l post hsplit hpre hl
    simp [addToCart, hsplit, addLine_of_mem pre l post itemId qty hpre hl]
  · simp [addToCart, calcTotal_eq_sum]

/-- Witness for C9 at the sample cart and catalog: adding more of item 100 merges
into its existing line, adding unknown item 102 appends a line, and the
recomputed total matches the per-line sum. -/
theorem addToCart_merge_and_total_witness :
    ((addToCart catalog alice (some cartOrder) 100 3).items =
      [] ++ { itemId := 100, qty := 2 + 3 } :: [{ itemId := 101, qty := 1 }]) ∧
    ((addToCart catalog alice (some cartOrder) 102 4).items =
      cartOrder.items ++ [{ itemId := 102, qty := 4 }]) ∧
    ((addToCart catalog alice (some cartOrder) 100 3).total =
      ((addToCart catalog alice (some cartOrder) 100 3).items.map (lineTotal catalog)).sum) :=
  ⟨(addToCart_merge_and_total catalog alice cartOrder 100 3 rfl).2.1 []
      { itemId := 100, qty := 2 } [{ itemId := 101, qty := 1 }] rfl (by simp) rfl,
   (addToCart_merge_and_total catalog alice cartOrder 102 4 rfl).1 (by decide),
   (addToCart_merge_and_total catalog alice cartOrder 100 3 rfl).2.2⟩

end VulnYoga
